import Mathlib

/-!
Shallow embedding of the video-upload pipeline
(`handlerUploadVideo`, `getVideoAspectRatio`, `processVideoForFastStart`)
from the repository's video API module, together with theorems checking the
specification's claims against it.

Modelling conventions:
* JavaScript numbers used for media dimensions are modelled as exact
  rationals (the dimensions are small integers parsed by `parseInt`, and the
  boundary constants 1.70, 1.80, 0.50, 0.60 are decimal literals).
* `Bun.spawn` results are modelled by an environment record carrying the
  child process exit codes (`Option Int`: `none` models a signal-killed
  process, whose `exitCode` is not `0`), the parsed ffprobe dimensions, the
  diagnostic text sitting in the piped ffmpeg stderr stream and the S3 write
  outcome. A piped stream is a `ReadableStream` handle: interpolating it
  into a template literal yields the handle's fixed string form, not the
  stream's content.
* Thrown JS errors are modelled with `Except`; the filesystem is modelled by
  two booleans recording whether the staging and processed temp files exist.
-/

/-- Classification labels produced by the aspect-ratio classifier
(the source returns the strings "landscape", "portrait", "other"). -/
inductive Label
  | landscape
  | portrait
  | other
deriving DecidableEq, Repr

/-- The string the source returns for each label. -/
def labelStr : Label → String
  | .landscape => "landscape"
  | .portrait => "portrait"
  | .other => "other"

/-- `const MAX_UPLOAD_LIMIT = 1 << 30;` (JS `<<` on int32; 2^30 fits). -/
def MAX_UPLOAD_LIMIT : Nat := 1 <<< 30

/-- The pure classification step of `getVideoAspectRatio` (source lines
120-123): `fileRatio = width / height`, then inclusive interval tests. -/
def getRatioLabel (width height : ℚ) : Label :=
  let r := width / height
  if 1.70 ≤ r ∧ r ≤ 1.80 then .landscape
  else if 0.50 ≤ r ∧ r ≤ 0.60 then .portrait
  else .other

/-- Lowercase hexadecimal digit for a value below 16 (codepoint arithmetic:
values below ten map into the decimal digits, the rest into letters from
`a`). -/
def hexDigit (n : Nat) : Char :=
  if n < 10 then Char.ofNat (48 + n) else Char.ofNat (87 + n)

/-- The sixteen lowercase hexadecimal digits. -/
def hexDigits : List Char := (List.range 16).map hexDigit

/-- Character list of the lowercase hex encoding of a byte sequence,
two digits per byte, as produced by `Buffer.toHex()`. -/
def toHexChars : List Nat → List Char
  | [] => []
  | b :: bs => hexDigit (b / 16) :: hexDigit (b % 16) :: toHexChars bs

/-- `randomBytes(32).toHex()` applied to an explicit byte list. -/
def toHex (bs : List Nat) : String := ⟨toHexChars bs⟩

/-- The storage key built at source line 56:
`` `${ratio}/${randomBytes(32).toHex()}.mp4` `` with the label string and the
random bytes made explicit. -/
def makeKey (label : String) (bs : List Nat) : String :=
  label ++ "/" ++ toHex bs ++ ".mp4"

/-- `path.join("/tmp", `${videoId}.mp4`)` (source line 50); the id is a
UUID-style segment, so posix join is plain concatenation. -/
def tempFilePathOf (videoId : String) : String :=
  "/tmp/" ++ videoId ++ ".mp4"

/-- `const outFilePath = inFilePath + ".processed"` (source line 137). -/
def processedPathOf (inFilePath : String) : String :=
  inFilePath ++ ".processed"

/-- Evaluation of the classifier on exact 16:9 dimensions. -/
theorem getRatioLabel_sixteen_nine : getRatioLabel 1920 1080 = Label.landscape := by
  unfold getRatioLabel
  norm_num

example : toHex [0, 255, 16] = "00ff10" := by decide
example : MAX_UPLOAD_LIMIT = 1073741824 := by decide

/- ## The handler state machine -/

/-- The part of a DB video row the pipeline touches: owner id and the
mutable locator (`videoURL`). -/
structure Video where
  userID : String
  videoURL : Option String
deriving DecidableEq, Repr

/-- The request data `handlerUploadVideo` reads: the `videoId` route
parameter, the principal returned by `validateJWT` (auth collaborator,
modelled as succeeding), whether `formData.get("video")` is a `File`, and
the file's declared size and type. -/
structure UploadReq where
  videoId : Option String
  userId : String
  fileIsFile : Bool
  fileSize : Nat
  fileType : String
deriving DecidableEq, Repr

/-- Behaviour of the external world during one run: child-process exit
codes (`none` = killed by a signal, so `exitCode` is not `0`), the
width/height parsed from ffprobe stdout JSON (`none` = stdout does not
parse into the expected shape), the diagnostic text ffmpeg wrote to its
piped stderr stream (present in the stream but never read by the source,
which only stringifies the stream handle), the S3 write outcome, and the
32 bytes from `randomBytes(32)`. -/
structure ExtEnv where
  ffprobeExitCode : Option Int
  probeDims : Option (ℚ × ℚ)
  ffmpegExitCode : Option Int
  ffmpegStderr : String
  s3WriteOk : Bool
  randBytes : List Nat
deriving DecidableEq, Repr

/-- Bucket/region configuration used to build the final locator. -/
structure S3Cfg where
  s3Bucket : String
  s3Region : String
deriving DecidableEq, Repr

/-- Which of the two temp files exist on the filesystem. -/
structure FsState where
  stagingExists : Bool
  processedExists : Bool
deriving DecidableEq, Repr

/-- Errors a run can end with: the three thrown API error classes, a JS
exception from parsing ffprobe output (`JSON.parse` / missing stream entry),
the `Error` thrown with ffmpeg's stderr, and a rejected S3 write. -/
inductive HandlerError
  | badRequest (msg : String)
  | notFound (msg : String)
  | userForbidden (msg : String)
  | probeParseError
  | toolError (msg : String)
  | s3Error
deriving DecidableEq, Repr

/-- Checkpoints of the handler, in the order the source performs them. -/
inductive Ev
  | resolveRecord
  | checkForbidden
  | checkFileField
  | checkSize
  | checkType
  | writeStaging
  | probe
  | remux
  | s3Upload
  | updateRecord
  | removeStaging
deriving DecidableEq, Repr

/-- Outcome of one handler run: the response or thrown error, the final
temp-file state, the final DB, and the trace of reached checkpoints. -/
structure RunOut where
  result : Except HandlerError (Nat × Video)
  fs : FsState
  db : String → Option Video
  trace : List Ev

/-- `getVideoAspectRatio` (source lines 78-134): on exit code `0` it parses
stdout and classifies; a malformed parse throws; on any other exit code the
error branch only logs, so the function falls through and returns
`undefined` (modelled as `Option.none`) without failing. -/
def getVideoAspectRatio (env : ExtEnv) : Except HandlerError (Option Label) :=
  if env.ffprobeExitCode = some 0 then
    match env.probeDims with
    | some (w, h) => .ok (some (getRatioLabel w h))
    | none => .error .probeParseError
  else
    .ok none

/-- JS template interpolation `${ratio}` where `ratio` may be `undefined`. -/
def ratioToStr : Option Label → String
  | none => "undefined"
  | some l => labelStr l

/-- The string JS produces for `` `${proc.stderr}` `` when `proc.stderr` is
a piped `ReadableStream` handle: the synchronous template interpolation
cannot read the stream's content and yields the object's default string
form. -/
def streamHandleStr : String := "[object ReadableStream]"

/-- `processVideoForFastStart` (source lines 136-175): on a non-zero (or
null, signal-kill) exit code it throws `new Error` built by interpolating
the `proc.stderr` stream handle — so the error message is the handle's
fixed string form, not the diagnostic text in the stream; otherwise it
returns the `.processed` output path. -/
def processVideoForFastStart (inFilePath : String) (env : ExtEnv) :
    Except HandlerError String :=
  if env.ffmpegExitCode ≠ some 0 then
    .error (.toolError streamHandleStr)
  else
    .ok (processedPathOf inFilePath)

/-- The final locator built at source line 66:
`` `https://${cfg.s3Bucket}.s3.${cfg.s3Region}.amazonaws.com/${key}` ``. -/
def locatorUrl (cfg : S3Cfg) (key : String) : String :=
  "https://" ++ cfg.s3Bucket ++ ".s3." ++ cfg.s3Region ++ ".amazonaws.com/" ++ key

/-- `handlerUploadVideo` (source lines 14-73) as a run of the state machine:
checks in source order, temp-file writes/removals made explicit, DB update
keyed by the video id. On the success path only the staging file is removed
(source line 69); no removal happens on any error path. -/
def runHandler (cfg : S3Cfg) (req : UploadReq) (db : String → Option Video)
    (env : ExtEnv) : RunOut :=
  match req.videoId with
  | none =>
      ⟨.error (.badRequest "invalid video id"), ⟨false, false⟩, db, []⟩
  | some videoId =>
    match db videoId with
    | none =>
        ⟨.error (.notFound "video not found"), ⟨false, false⟩, db,
          [.resolveRecord]⟩
    | some video =>
      if video.userID ≠ req.userId then
        ⟨.error (.userForbidden "user not authorized"), ⟨false, false⟩, db,
          [.resolveRecord, .checkForbidden]⟩
      else if req.fileIsFile = false then
        ⟨.error (.badRequest "data is not a file"), ⟨false, false⟩, db,
          [.resolveRecord, .checkForbidden, .checkFileField]⟩
      else if req.fileSize > MAX_UPLOAD_LIMIT then
        ⟨.error (.badRequest "file exceeds upload limit (1GB)"), ⟨false, false⟩,
          db, [.resolveRecord, .checkForbidden, .checkFileField, .checkSize]⟩
      else if req.fileType ≠ "video/mp4" then
        ⟨.error (.badRequest "wrong media type"), ⟨false, false⟩, db,
          [.resolveRecord, .checkForbidden, .checkFileField, .checkSize,
            .checkType]⟩
      else
        match getVideoAspectRatio env with
        | .error e =>
            ⟨.error e, ⟨true, false⟩, db,
              [.resolveRecord, .checkForbidden, .checkFileField, .checkSize,
                .checkType, .writeStaging, .probe]⟩
        | .ok ratio =>
          let key := makeKey (ratioToStr ratio) env.randBytes
          match processVideoForFastStart (tempFilePathOf videoId) env with
          | .error e =>
              ⟨.error e, ⟨true, false⟩, db,
                [.resolveRecord, .checkForbidden, .checkFileField, .checkSize,
                  .checkType, .writeStaging, .probe, .remux]⟩
          | .ok _tempProcessedFilePath =>
            if env.s3WriteOk = false then
              ⟨.error .s3Error, ⟨true, true⟩, db,
                [.resolveRecord, .checkForbidden, .checkFileField, .checkSize,
                  .checkType, .writeStaging, .probe, .remux, .s3Upload]⟩
            else
              let video2 : Video := { video with videoURL := some (locatorUrl cfg key) }
              ⟨.ok (200, video2), ⟨false, true⟩,
                fun id => if id = videoId then some video2 else db id,
                [.resolveRecord, .checkForbidden, .checkFileField, .checkSize,
                  .checkType, .writeStaging, .probe, .remux, .s3Upload,
                  .updateRecord, .removeStaging]⟩

/- ## Concrete fixtures -/

/-- A bucket/region configuration. -/
def tubeCfg : S3Cfg := ⟨"tube", "eu-central-1"⟩

/-- A well-formed request: record `v1`, principal `u1`, a 1 KiB mp4 file. -/
def okReq : UploadReq := ⟨some "v1", "u1", true, 1024, "video/mp4"⟩

/-- A DB holding record `v1` owned by `u1`, locator not yet set. -/
def okDb : String → Option Video :=
  fun id => if id = "v1" then some ⟨"u1", none⟩ else none

/-- An environment where every external step succeeds: ffprobe exits 0 and
reports 1920x1080, ffmpeg exits 0, the S3 write succeeds; the random bytes
are fixed to 32 zero bytes. -/
def okEnv : ExtEnv := ⟨some 0, some (1920, 1080), some 0, "", true, List.replicate 32 0⟩

/-- `okEnv` but ffprobe exits 1 (probe-tool failure). -/
def probeFailEnv : ExtEnv := ⟨some 1, none, some 0, "", true, List.replicate 32 0⟩

/-- `okEnv` but ffmpeg exits 1 with diagnostic output on stderr. -/
def remuxFailEnv : ExtEnv :=
  ⟨some 0, some (1920, 1080), some 1, "muxing failed", true, List.replicate 32 0⟩

/-- `okEnv` but the S3 write is rejected. -/
def s3FailEnv : ExtEnv := ⟨some 0, some (1920, 1080), some 0, "", false, List.replicate 32 0⟩

/-- The probe step of `okEnv` classifies 1920x1080 as landscape. -/
theorem probe_okEnv : getVideoAspectRatio okEnv = .ok (some Label.landscape) := by
  unfold getVideoAspectRatio okEnv
  simp [getRatioLabel_sixteen_nine]

example : (runHandler tubeCfg okReq okDb okEnv).fs.processedExists = true := by
  simp [runHandler, tubeCfg, okReq, okDb, okEnv, getVideoAspectRatio,
    getRatioLabel_sixteen_nine, processVideoForFastStart, MAX_UPLOAD_LIMIT]

/- ## Case analysis of a handler run -/

/-- The only error the probe adapter can throw is the parse error. -/
theorem probe_error_eq (env : ExtEnv) (e : HandlerError)
    (h : getVideoAspectRatio env = .error e) : e = .probeParseError := by
  unfold getVideoAspectRatio at h
  split at h
  · split at h <;> simp_all
  · simp_all

/-- The only error the remux adapter can throw is the tool error whose
message is the stringified stderr stream handle. -/
theorem remux_error_eq (p : String) (env : ExtEnv) (e : HandlerError)
    (h : processVideoForFastStart p env = .error e) :
    e = .toolError streamHandleStr := by
  unfold processVideoForFastStart at h
  split at h <;> simp_all

/-- Exhaustive case analysis of one run of `handlerUploadVideo`: exactly one
of the ten exit points is taken, with the guards that lead there and the
complete observable outcome. -/
theorem runHandler_cases (cfg : S3Cfg) (req : UploadReq)
    (db : String → Option Video) (env : ExtEnv) :
    (req.videoId = none ∧
      runHandler cfg req db env =
        ⟨.error (.badRequest "invalid video id"), ⟨false, false⟩, db, []⟩) ∨
    (∃ vid, req.videoId = some vid ∧ db vid = none ∧
      runHandler cfg req db env =
        ⟨.error (.notFound "video not found"), ⟨false, false⟩, db,
          [.resolveRecord]⟩) ∨
    (∃ vid video, req.videoId = some vid ∧ db vid = some video ∧
      video.userID ≠ req.userId ∧
      runHandler cfg req db env =
        ⟨.error (.userForbidden "user not authorized"), ⟨false, false⟩, db,
          [.resolveRecord, .checkForbidden]⟩) ∨
    (∃ vid video, req.videoId = some vid ∧ db vid = some video ∧
      video.userID = req.userId ∧ req.fileIsFile = false ∧
      runHandler cfg req db env =
        ⟨.error (.badRequest "data is not a file"), ⟨false, false⟩, db,
          [.resolveRecord, .checkForbidden, .checkFileField]⟩) ∨
    (∃ vid video, req.videoId = some vid ∧ db vid = some video ∧
      video.userID = req.userId ∧ req.fileIsFile = true ∧
      req.fileSize > MAX_UPLOAD_LIMIT ∧
      runHandler cfg req db env =
        ⟨.error (.badRequest "file exceeds upload limit (1GB)"), ⟨false, false⟩,
          db, [.resolveRecord, .checkForbidden, .checkFileField, .checkSize]⟩) ∨
    (∃ vid video, req.videoId = some vid ∧ db vid = some video ∧
      video.userID = req.userId ∧ req.fileIsFile = true ∧
      ¬req.fileSize > MAX_UPLOAD_LIMIT ∧ req.fileType ≠ "video/mp4" ∧
      runHandler cfg req db env =
        ⟨.error (.badRequest "wrong media type"), ⟨false, false⟩, db,
          [.resolveRecord, .checkForbidden, .checkFileField, .checkSize,
            .checkType]⟩) ∨
    (∃ vid video, req.videoId = some vid ∧ db vid = some video ∧
      video.userID = req.userId ∧ req.fileIsFile = true ∧
      ¬req.fileSize > MAX_UPLOAD_LIMIT ∧ req.fileType = "video/mp4" ∧
      getVideoAspectRatio env = .error .probeParseError ∧
      runHandler cfg req db env =
        ⟨.error .probeParseError, ⟨true, false⟩, db,
          [.resolveRecord, .checkForbidden, .checkFileField, .checkSize,
            .checkType, .writeStaging, .probe]⟩) ∨
    (∃ vid video ratio, req.videoId = some vid ∧ db vid = some video ∧
      video.userID = req.userId ∧ req.fileIsFile = true ∧
      ¬req.fileSize > MAX_UPLOAD_LIMIT ∧ req.fileType = "video/mp4" ∧
      getVideoAspectRatio env = .ok ratio ∧
      processVideoForFastStart (tempFilePathOf vid) env =
        .error (.toolError streamHandleStr) ∧
      runHandler cfg req db env =
        ⟨.error (.toolError streamHandleStr), ⟨true, false⟩, db,
          [.resolveRecord, .checkForbidden, .checkFileField, .checkSize,
            .checkType, .writeStaging, .probe, .remux]⟩) ∨
    (∃ vid video ratio, req.videoId = some vid ∧ db vid = some video ∧
      video.userID = req.userId ∧ req.fileIsFile = true ∧
      ¬req.fileSize > MAX_UPLOAD_LIMIT ∧ req.fileType = "video/mp4" ∧
      getVideoAspectRatio env = .ok ratio ∧
      processVideoForFastStart (tempFilePathOf vid) env =
        .ok (processedPathOf (tempFilePathOf vid)) ∧
      env.s3WriteOk = false ∧
      runHandler cfg req db env =
        ⟨.error .s3Error, ⟨true, true⟩, db,
          [.resolveRecord, .checkForbidden, .checkFileField, .checkSize,
            .checkType, .writeStaging, .probe, .remux, .s3Upload]⟩) ∨
    (∃ vid video ratio, req.videoId = some vid ∧ db vid = some video ∧
      video.userID = req.userId ∧ req.fileIsFile = true ∧
      ¬req.fileSize > MAX_UPLOAD_LIMIT ∧ req.fileType = "video/mp4" ∧
      getVideoAspectRatio env = .ok ratio ∧
      processVideoForFastStart (tempFilePathOf vid) env =
        .ok (processedPathOf (tempFilePathOf vid)) ∧
      env.s3WriteOk = true ∧
      runHandler cfg req db env =
        ⟨.ok (200,
            { userID := video.userID,
              videoURL := some
                (locatorUrl cfg (makeKey (ratioToStr ratio) env.randBytes)) }),
          ⟨false, true⟩,
          (fun id => if id = vid then
              some { userID := video.userID,
                     videoURL := some
                       (locatorUrl cfg
                         (makeKey (ratioToStr ratio) env.randBytes)) }
            else db id),
          [.resolveRecord, .checkForbidden, .checkFileField, .checkSize,
            .checkType, .writeStaging, .probe, .remux, .s3Upload,
            .updateRecord, .removeStaging]⟩) := by
  unfold runHandler
  rcases hvid : req.videoId with _ | vid
  · exact Or.inl ⟨rfl, rfl⟩
  · dsimp only
    rcases hdb : db vid with _ | video
    · exact Or.inr (Or.inl ⟨vid, rfl, hdb, rfl⟩)
    · dsimp only
      by_cases hown : video.userID = req.userId
      · rw [if_neg (not_not_intro hown)]
        rcases hfile : req.fileIsFile with _ | _
        · simp only [reduceIte]
          exact Or.inr (Or.inr (Or.inr (Or.inl
            ⟨vid, video, by trivial, hdb, hown, by trivial, by trivial⟩)))
        · simp only [reduceIte]
          by_cases hsize : req.fileSize > MAX_UPLOAD_LIMIT
          · rw [if_pos hsize]
            exact Or.inr (Or.inr (Or.inr (Or.inr (Or.inl
              ⟨vid, video, by trivial, hdb, hown, by trivial, hsize, by trivial⟩))))
          · rw [if_neg hsize]
            by_cases htype : req.fileType = "video/mp4"
            · rw [if_neg (not_not_intro htype)]
              rcases hpr : getVideoAspectRatio env with e | ratio
              · have he := probe_error_eq env e hpr
                subst he
                exact Or.inr (Or.inr (Or.inr (Or.inr (Or.inr (Or.inr (Or.inl
                  ⟨vid, video, by trivial, hdb, hown, by trivial, hsize, htype,
                    by trivial, by trivial⟩))))))
              · rcases hre : processVideoForFastStart (tempFilePathOf vid) env with
                  e | outp
                · have he := remux_error_eq (tempFilePathOf vid) env e hre
                  subst he
                  exact Or.inr (Or.inr (Or.inr (Or.inr (Or.inr (Or.inr (Or.inr
                    (Or.inl ⟨vid, video, ratio, by trivial, hdb, hown, by trivial,
                      hsize, htype, by trivial, hre, by trivial⟩)))))))
                · have hout : outp = processedPathOf (tempFilePathOf vid) := by
                    unfold processVideoForFastStart at hre
                    split at hre <;> simp_all
                  subst hout
                  rcases hs3 : env.s3WriteOk with _ | _
                  · simp only [reduceIte]
                    exact Or.inr (Or.inr (Or.inr (Or.inr (Or.inr (Or.inr (Or.inr
                      (Or.inr (Or.inl ⟨vid, video, ratio, by trivial, hdb, hown,
                        by trivial, hsize, htype, by trivial, hre, by trivial,
                        by trivial⟩))))))))
                  · simp only [reduceIte]
                    exact Or.inr (Or.inr (Or.inr (Or.inr (Or.inr (Or.inr (Or.inr
                      (Or.inr (Or.inr ⟨vid, video, ratio, by trivial, hdb, hown,
                        by trivial, hsize, htype, by trivial, hre, by trivial,
                        by trivial⟩))))))))
            · rw [if_pos htype]
              exact Or.inr (Or.inr (Or.inr (Or.inr (Or.inr (Or.inl
                ⟨vid, video, by trivial, hdb, hown, by trivial, hsize, htype,
                  by trivial⟩)))))
      · rw [if_pos hown]
        exact Or.inr (Or.inr (Or.inl ⟨vid, video, rfl, hdb, hown, rfl⟩))

/- ## Claims -/

/-- C4: for all positive width/height pairs, the classifier returns
`landscape` exactly when width/height lies in [1.70, 1.80], `portrait`
exactly when it lies in [0.50, 0.60], and `other` otherwise, all four
boundaries inclusive. -/
theorem C4_classifier_boundaries (w h : ℚ) (_hw : 0 < w) (_hh : 0 < h) :
    (getRatioLabel w h = Label.landscape ↔ 1.70 ≤ w / h ∧ w / h ≤ 1.80) ∧
    (getRatioLabel w h = Label.portrait ↔ 0.50 ≤ w / h ∧ w / h ≤ 0.60) ∧
    (getRatioLabel w h = Label.other ↔
      ¬(1.70 ≤ w / h ∧ w / h ≤ 1.80) ∧ ¬(0.50 ≤ w / h ∧ w / h ≤ 0.60)) := by
  simp only [getRatioLabel]
  split_ifs with h1 h2
  · refine ⟨by simp [h1], ?_, ?_⟩
    · simp only [reduceCtorEq, false_iff]
      rintro ⟨-, hub⟩
      have := h1.1
      norm_num at this hub
      linarith
    · simp only [reduceCtorEq, false_iff]
      rintro ⟨hc, -⟩
      exact hc h1
  · refine ⟨by simp [h1], by simp [h2], ?_⟩
    simp only [reduceCtorEq, false_iff]
    rintro ⟨-, hc⟩
    exact hc h2
  · exact ⟨by simp [h1], by simp [h2], by simp [h1, h2]⟩

/-- C4 witness: the theorem applied at 1920x1080, yielding `landscape`. -/
theorem C4_classifier_boundaries_witness :
    getRatioLabel 1920 1080 = Label.landscape :=
  (C4_classifier_boundaries 1920 1080 (by norm_num) (by norm_num)).1.2
    (by norm_num)

/-- C10: the ceiling comparison is strict: `MAX_UPLOAD_LIMIT` is 2^30 and a
declared size of at most 2^30 bytes is never rejected by the size check. -/
theorem C10_size_ceiling_strict :
    MAX_UPLOAD_LIMIT = 2 ^ 30 ∧
    ∀ (cfg : S3Cfg) (req : UploadReq) (db : String → Option Video) (env : ExtEnv),
      req.fileSize ≤ 2 ^ 30 →
      (runHandler cfg req db env).result ≠
        Except.error (.badRequest "file exceeds upload limit (1GB)") := by
  refine ⟨by decide, ?_⟩
  intro cfg req db env hle
  have hle2 : req.fileSize ≤ 1073741824 := by norm_num at hle; exact hle
  have hM : MAX_UPLOAD_LIMIT = 1073741824 := by decide
  rcases runHandler_cases cfg req db env with
    ⟨-, hout⟩ | ⟨vid, -, -, hout⟩ | ⟨vid, video, -, -, -, hout⟩ |
    ⟨vid, video, -, -, -, -, hout⟩ | ⟨vid, video, -, -, -, -, hsize, hout⟩ |
    ⟨vid, video, -, -, -, -, -, -, hout⟩ |
    ⟨vid, video, -, -, -, -, -, -, -, hout⟩ |
    ⟨vid, video, ratio, -, -, -, -, -, -, -, -, hout⟩ |
    ⟨vid, video, ratio, -, -, -, -, -, -, -, -, -, hout⟩ |
    ⟨vid, video, ratio, -, -, -, -, -, -, -, -, -, hout⟩
  · rw [hout]; simp
  · rw [hout]; simp
  · rw [hout]; simp
  · rw [hout]; simp
  · omega
  · rw [hout]; simp
  · rw [hout]; simp
  · rw [hout]; simp
  · rw [hout]; simp
  · rw [hout]; simp

/-- C6: a run that has resolved an owned record and a file field but whose
declared size exceeds 1 GiB fails with the size Bad-Request, and no staging
file is ever written. -/
theorem C6_oversize_rejected_before_staging (cfg : S3Cfg) (req : UploadReq)
    (db : String → Option Video) (env : ExtEnv) (vid : String) (video : Video)
    (hvid : req.videoId = some vid) (hdb : db vid = some video)
    (hown : video.userID = req.userId) (hfile : req.fileIsFile = true)
    (hsize : req.fileSize > MAX_UPLOAD_LIMIT) :
    (runHandler cfg req db env).result =
      Except.error (.badRequest "file exceeds upload limit (1GB)") ∧
    (runHandler cfg req db env).fs.stagingExists = false ∧
    (runHandler cfg req db env).fs.processedExists = false ∧
    Ev.writeStaging ∉ (runHandler cfg req db env).trace := by
  rcases runHandler_cases cfg req db env with
    ⟨h1, -⟩ | ⟨vid2, h1, h2, -⟩ | ⟨vid2, video2, h1, h2, h3, -⟩ |
    ⟨vid2, video2, h1, h2, h3, h4, -⟩ |
    ⟨vid2, video2, h1, h2, h3, h4, h5, hout⟩ |
    ⟨vid2, video2, h1, h2, h3, h4, h5, h6, -⟩ |
    ⟨vid2, video2, h1, h2, h3, h4, h5, h6, h7, -⟩ |
    ⟨vid2, video2, ratio, h1, h2, h3, h4, h5, h6, h7, h8, -⟩ |
    ⟨vid2, video2, ratio, h1, h2, h3, h4, h5, h6, h7, h8, h9, -⟩ |
    ⟨vid2, video2, ratio, h1, h2, h3, h4, h5, h6, h7, h8, h9, -⟩
  · simp_all
  · simp_all
  · simp_all
  · simp_all
  · rw [hout]
    exact ⟨rfl, rfl, rfl, by simp⟩
  · simp_all
  · simp_all
  · simp_all
  · simp_all
  · simp_all

/-- C6 witness: a 2^30+1-byte upload for an existing owned record is
rejected with the size Bad-Request. -/
theorem C6_oversize_rejected_before_staging_witness :
    (runHandler tubeCfg ⟨some "v1", "u1", true, 2 ^ 30 + 1, "video/mp4"⟩ okDb
        okEnv).result =
      Except.error (.badRequest "file exceeds upload limit (1GB)") :=
  (C6_oversize_rejected_before_staging tubeCfg
    ⟨some "v1", "u1", true, 2 ^ 30 + 1, "video/mp4"⟩ okDb okEnv "v1"
    ⟨"u1", none⟩ rfl (by decide) rfl rfl (by decide)).1

/-- C5: if the S3 write fails, the DB is left unmodified (so the record's
prior locator is untouched), the run cannot succeed, and when the upload
step was actually reached the run fails with the upload error. -/
theorem C5_locator_written_only_after_upload (cfg : S3Cfg) (req : UploadReq)
    (db : String → Option Video) (env : ExtEnv) (h : env.s3WriteOk = false) :
    (runHandler cfg req db env).db = db ∧
    (∀ r, (runHandler cfg req db env).result ≠ Except.ok r) ∧
    (Ev.s3Upload ∈ (runHandler cfg req db env).trace →
      (runHandler cfg req db env).result = Except.error .s3Error) := by
  rcases runHandler_cases cfg req db env with
    ⟨-, hout⟩ | ⟨vid, -, -, hout⟩ | ⟨vid, video, -, -, -, hout⟩ |
    ⟨vid, video, -, -, -, -, hout⟩ | ⟨vid, video, -, -, -, -, -, hout⟩ |
    ⟨vid, video, -, -, -, -, -, -, hout⟩ |
    ⟨vid, video, -, -, -, -, -, -, -, hout⟩ |
    ⟨vid, video, ratio, -, -, -, -, -, -, -, -, hout⟩ |
    ⟨vid, video, ratio, -, -, -, -, -, -, -, -, -, hout⟩ |
    ⟨vid, video, ratio, -, -, -, -, -, -, -, -, hs3, hout⟩
  · rw [hout]; exact ⟨rfl, by simp, by intro hm; simp at hm⟩
  · rw [hout]; exact ⟨rfl, by simp, by intro hm; simp at hm⟩
  · rw [hout]; exact ⟨rfl, by simp, by intro hm; simp at hm⟩
  · rw [hout]; exact ⟨rfl, by simp, by intro hm; simp at hm⟩
  · rw [hout]; exact ⟨rfl, by simp, by intro hm; simp at hm⟩
  · rw [hout]; exact ⟨rfl, by simp, by intro hm; simp at hm⟩
  · rw [hout]; exact ⟨rfl, by simp, by intro hm; simp at hm⟩
  · rw [hout]; exact ⟨rfl, by simp, by intro hm; simp at hm⟩
  · rw [hout]; exact ⟨rfl, by simp, fun _ => rfl⟩
  · rw [h] at hs3; cases hs3

/-- C5 witness: at a concrete failing-upload run the DB is unchanged. -/
theorem C5_locator_written_only_after_upload_witness :
    (runHandler tubeCfg okReq okDb s3FailEnv).db = okDb :=
  (C5_locator_written_only_after_upload tubeCfg okReq okDb s3FailEnv rfl).1

/-- C9 counterexample: on a failing remux whose stream holds the diagnostic
text "muxing failed", the thrown error's message is the stringified stream
handle, not that diagnostic text — the error does not carry the captured
stderr output. -/
theorem C9_counterexample :
    processVideoForFastStart "/tmp/v1.mp4" remuxFailEnv =
      Except.error (.toolError streamHandleStr) ∧
    remuxFailEnv.ffmpegStderr = "muxing failed" ∧
    HandlerError.toolError streamHandleStr ≠
      HandlerError.toolError remuxFailEnv.ffmpegStderr := by
  refine ⟨rfl, rfl, by decide⟩

/-- C9 amended: on a non-zero (or signal) ffmpeg exit the remux adapter
fails with a tool-failure error and never retries, but the error's message
is the fixed string form of the piped stderr stream handle rather than the
captured diagnostic text. -/
theorem C9_amended_remux_failure (inFilePath : String) (env : ExtEnv)
    (h : env.ffmpegExitCode ≠ some 0) :
    processVideoForFastStart inFilePath env =
      Except.error (.toolError streamHandleStr) ∧
    ∀ (cfg : S3Cfg) (req : UploadReq) (db : String → Option Video),
      ((runHandler cfg req db env).trace.count Ev.remux) ≤ 1 := by
  constructor
  · unfold processVideoForFastStart
    rw [if_pos h]
  · intro cfg req db
    rcases runHandler_cases cfg req db env with
      ⟨-, hout⟩ | ⟨vid, -, -, hout⟩ | ⟨vid, video, -, -, -, hout⟩ |
      ⟨vid, video, -, -, -, -, hout⟩ | ⟨vid, video, -, -, -, -, -, hout⟩ |
      ⟨vid, video, -, -, -, -, -, -, hout⟩ |
      ⟨vid, video, -, -, -, -, -, -, -, hout⟩ |
      ⟨vid, video, ratio, -, -, -, -, -, -, -, -, hout⟩ |
      ⟨vid, video, ratio, -, -, -, -, -, -, -, -, -, hout⟩ |
      ⟨vid, video, ratio, -, -, -, -, -, -, -, -, -, hout⟩ <;>
    rw [hout] <;> simp [List.count_cons]

/-- C9 witness: the amended behaviour at a concrete failing process. -/
theorem C9_amended_remux_failure_witness :
    processVideoForFastStart "/tmp/v1.mp4" remuxFailEnv =
      Except.error (.toolError streamHandleStr) :=
  (C9_amended_remux_failure "/tmp/v1.mp4" remuxFailEnv (by decide)).1

/-- The checkpoint order actually performed by the handler: record
resolution and the ownership check come first, then the file-field, size and
type checks, then staging, probe, remux, upload, record update, staging
removal. -/
def handlerCheckpointOrder : List Ev :=
  [.resolveRecord, .checkForbidden, .checkFileField, .checkSize, .checkType,
    .writeStaging, .probe, .remux, .s3Upload, .updateRecord, .removeStaging]

/-- C8 counterexample: for an oversized upload whose record id does not
resolve, the handler fails with Not-Found, having resolved the record before
any size check — the claimed size-then-type-then-resolution order would have
produced the size Bad-Request. -/
theorem C8_counterexample :
    (runHandler tubeCfg ⟨some "v2", "u1", true, 1 <<< 31, "video/mp4"⟩
        (fun _ => none) okEnv).result =
      Except.error (.notFound "video not found") ∧
    (runHandler tubeCfg ⟨some "v2", "u1", true, 1 <<< 31, "video/mp4"⟩
        (fun _ => none) okEnv).trace = [Ev.resolveRecord] ∧
    1 <<< 31 > MAX_UPLOAD_LIMIT := by
  refine ⟨rfl, rfl, by decide⟩

/-- C8 amended: the validations are performed in the fixed order
`handlerCheckpointOrder` — record resolution and the ownership check first,
then file-field, size and type checks, then staging; every run's trace is a
prefix of that order (so the ownership check always precedes staging). -/
theorem C8_amended_validation_order (cfg : S3Cfg) (req : UploadReq)
    (db : String → Option Video) (env : ExtEnv) :
    ∃ rest, (runHandler cfg req db env).trace ++ rest = handlerCheckpointOrder := by
  rcases runHandler_cases cfg req db env with
    ⟨-, hout⟩ | ⟨vid, -, -, hout⟩ | ⟨vid, video, -, -, -, hout⟩ |
    ⟨vid, video, -, -, -, -, hout⟩ | ⟨vid, video, -, -, -, -, -, hout⟩ |
    ⟨vid, video, -, -, -, -, -, -, hout⟩ |
    ⟨vid, video, -, -, -, -, -, -, -, hout⟩ |
    ⟨vid, video, ratio, -, -, -, -, -, -, -, -, hout⟩ |
    ⟨vid, video, ratio, -, -, -, -, -, -, -, -, -, hout⟩ |
    ⟨vid, video, ratio, -, -, -, -, -, -, -, -, -, hout⟩ <;>
  rw [hout] <;> exact ⟨_, rfl⟩

/-- C1: the handler does not clean up as claimed. After a fully successful
run the response is returned with the Processed File still on disk (only the
Staging File is removed, source line 69); after a remux failure the error
propagates with the Staging File still on disk (no cleanup on error paths). -/
theorem C1_cleanup_not_performed :
    (runHandler tubeCfg okReq okDb okEnv).result =
      Except.ok (200, ⟨"u1",
        some (locatorUrl tubeCfg (makeKey "landscape" (List.replicate 32 0)))⟩) ∧
    (runHandler tubeCfg okReq okDb okEnv).fs.processedExists = true ∧
    (runHandler tubeCfg okReq okDb remuxFailEnv).result =
      Except.error (.toolError streamHandleStr) ∧
    (runHandler tubeCfg okReq okDb remuxFailEnv).fs.stagingExists = true ∧
    (runHandler tubeCfg okReq okDb remuxFailEnv).fs.processedExists = false := by
  refine ⟨?_, ?_, ?_, ?_, ?_⟩ <;>
    simp [runHandler, tubeCfg, okReq, okDb, okEnv, remuxFailEnv,
      getVideoAspectRatio, getRatioLabel_sixteen_nine, processVideoForFastStart,
      ratioToStr, labelStr, makeKey, locatorUrl, MAX_UPLOAD_LIMIT]

/-- C2: a probe-tool failure (non-zero ffprobe exit) does not fail the run:
`getVideoAspectRatio` returns `undefined`, the pipeline continues, the key
is generated under the label string `"undefined"`, the upload proceeds, and
the record's locator IS updated — contradicting the claimed Tool-Failure
outcome with an unchanged locator. -/
theorem C2_probe_failure_run_succeeds :
    getVideoAspectRatio probeFailEnv = Except.ok none ∧
    (runHandler tubeCfg okReq okDb probeFailEnv).result =
      Except.ok (200, ⟨"u1",
        some (locatorUrl tubeCfg (makeKey "undefined" (List.replicate 32 0)))⟩) ∧
    (runHandler tubeCfg okReq okDb probeFailEnv).db "v1" =
      some ⟨"u1",
        some (locatorUrl tubeCfg (makeKey "undefined" (List.replicate 32 0)))⟩ ∧
    okDb "v1" = some ⟨"u1", none⟩ ∧
    (runHandler tubeCfg okReq okDb probeFailEnv).fs.stagingExists = false ∧
    (runHandler tubeCfg okReq okDb probeFailEnv).fs.processedExists = true := by
  exact ⟨rfl, rfl, rfl, rfl, rfl, rfl⟩

/-- An abstract pipeline run: the record id it is issued for plus a tag
distinguishing distinct (possibly concurrent) runs. The temp-file names in
the source depend only on the record id. -/
structure PipelineRun where
  videoId : String
  runTag : Nat
deriving DecidableEq, Repr

/-- The Staging File path of a run (source line 50). -/
def stagingPath (r : PipelineRun) : String := tempFilePathOf r.videoId

/-- The Processed File path of a run (source line 137). -/
def processedPath (r : PipelineRun) : String := processedPathOf (stagingPath r)

/-- `tempFilePathOf` is injective in the record id. -/
theorem tempFilePathOf_inj (a b : String) (h : tempFilePathOf a = tempFilePathOf b) :
    a = b := by
  unfold tempFilePathOf at h
  have hd := congrArg String.data h
  simp only [String.data_append] at hd
  exact String.ext (List.append_cancel_left (List.append_cancel_right hd))

/-- `processedPathOf` is injective. -/
theorem processedPathOf_inj (a b : String)
    (h : processedPathOf a = processedPathOf b) : a = b := by
  unfold processedPathOf at h
  have hd := congrArg String.data h
  simp only [String.data_append] at hd
  exact String.ext (List.append_cancel_right hd)

/-- C3 counterexample: two distinct runs issued for the same record id get
the same Staging File path and the same Processed File path (the temp name
uses only the record id, source line 50). -/
theorem C3_counterexample :
    (⟨"v1", 0⟩ : PipelineRun) ≠ ⟨"v1", 1⟩ ∧
    stagingPath ⟨"v1", 0⟩ = stagingPath ⟨"v1", 1⟩ ∧
    processedPath ⟨"v1", 0⟩ = processedPath ⟨"v1", 1⟩ := by
  refine ⟨by decide, rfl, rfl⟩

/-- C3 amended: Staging and Processed File paths of two runs differ exactly
when the record ids differ — runs for distinct records never collide, but
concurrent runs for the same record id share both paths. -/
theorem C3_amended_paths_distinct_iff_ids (r1 r2 : PipelineRun)
    (h : r1.videoId ≠ r2.videoId) :
    stagingPath r1 ≠ stagingPath r2 ∧ processedPath r1 ≠ processedPath r2 := by
  constructor
  · intro hc
    exact h (tempFilePathOf_inj _ _ hc)
  · intro hc
    exact h (tempFilePathOf_inj _ _ (processedPathOf_inj _ _ hc))

/-- C3 witness: two runs for distinct record ids have distinct paths. -/
theorem C3_amended_paths_distinct_iff_ids_witness :
    stagingPath ⟨"a", 0⟩ ≠ stagingPath ⟨"b", 0⟩ ∧
    processedPath ⟨"a", 0⟩ ≠ processedPath ⟨"b", 0⟩ :=
  C3_amended_paths_distinct_iff_ids ⟨"a", 0⟩ ⟨"b", 0⟩ (by decide)

/-- The key shape the spec claims: a classification label, a slash, the hex
encoding of a 128-bit value (32 hex digits), and the `.mp4` extension. -/
def isSpec128Key (s : String) : Prop :=
  ∃ (l : Label) (hex : String), hex.length = 32 ∧
    (∀ c ∈ hex.data, c ∈ hexDigits) ∧
    s = labelStr l ++ "/" ++ hex ++ ".mp4"

/-- C7 counterexample: the key the code builds from `randomBytes(32)` is not
of the claimed 128-bit shape — 32 random bytes hex-encode to 64 digits, not
32. -/
theorem C7_counterexample :
    ¬ isSpec128Key (makeKey (labelStr Label.other) (List.replicate 32 0)) := by
  rintro ⟨l, hex, hlen, -, heq⟩
  have hL := congrArg String.length heq
  have h74 : (makeKey (labelStr Label.other) (List.replicate 32 0)).length = 74 := by
    decide
  rw [h74] at hL
  simp only [String.length_append] at hL
  rw [hlen] at hL
  cases l <;> exact absurd hL (by decide)

/-- Each produced digit is a lowercase hex digit. -/
theorem hexDigit_mem (n : Nat) (h : n < 16) : hexDigit n ∈ hexDigits := by
  unfold hexDigits
  exact List.mem_map_of_mem _ (List.mem_range.mpr h)

/-- The hex encoding has two digits per byte. -/
theorem toHexChars_length (bs : List Nat) :
    (toHexChars bs).length = 2 * bs.length := by
  induction bs with
  | nil => rfl
  | cons b t ih =>
    simp only [toHexChars, List.length_cons, ih]
    omega

/-- Every character of the hex encoding of bytes is a hex digit. -/
theorem toHexChars_mem (bs : List Nat) (hb : ∀ b ∈ bs, b < 256) :
    ∀ c ∈ toHexChars bs, c ∈ hexDigits := by
  induction bs with
  | nil => intro c hc; cases hc
  | cons b t ih =>
    intro c hc
    simp only [toHexChars, List.mem_cons] at hc
    rcases hc with rfl | rfl | hc
    · exact hexDigit_mem _ (by have := hb b (by simp); omega)
    · exact hexDigit_mem _ (by have := hb b (by simp); omega)
    · exact ih (fun x hx => hb x (by simp [hx])) c hc

/-- C7 amended: every Storage Key under which a successful run stores the
artifact (it is embedded in the final locator) has the shape
`<label>/<64 lowercase hex digits encoding the 32 random bytes (256 bits)>.mp4`,
where the label is the classification string when the probe succeeded and
the string `"undefined"` when the probe tool failed. -/
theorem C7_amended_pipeline_key_shape (cfg : S3Cfg) (req : UploadReq)
    (db : String → Option Video) (env : ExtEnv) (v : Video)
    (hlen : env.randBytes.length = 32) (hb : ∀ b ∈ env.randBytes, b < 256)
    (hok : (runHandler cfg req db env).result = Except.ok (200, v)) :
    ∃ ratio : Option Label,
      v.videoURL =
        some (locatorUrl cfg (makeKey (ratioToStr ratio) env.randBytes)) ∧
      makeKey (ratioToStr ratio) env.randBytes =
        ratioToStr ratio ++ "/" ++ toHex env.randBytes ++ ".mp4" ∧
      (toHex env.randBytes).length = 64 ∧
      (∀ c ∈ (toHex env.randBytes).data, c ∈ hexDigits) ∧
      (∀ l, ratio = some l → ratioToStr ratio = labelStr l) ∧
      (ratio = none → ratioToStr ratio = "undefined") := by
  rcases runHandler_cases cfg req db env with
    ⟨-, hout⟩ | ⟨vid, -, -, hout⟩ | ⟨vid, video, -, -, -, hout⟩ |
    ⟨vid, video, -, -, -, -, hout⟩ | ⟨vid, video, -, -, -, -, -, hout⟩ |
    ⟨vid, video, -, -, -, -, -, -, hout⟩ |
    ⟨vid, video, -, -, -, -, -, -, -, hout⟩ |
    ⟨vid, video, ratio, -, -, -, -, -, -, -, -, hout⟩ |
    ⟨vid, video, ratio, -, -, -, -, -, -, -, -, -, hout⟩ |
    ⟨vid, video, ratio, -, -, -, -, -, -, -, -, -, hout⟩
  · rw [hout] at hok; simp at hok
  · rw [hout] at hok; simp at hok
  · rw [hout] at hok; simp at hok
  · rw [hout] at hok; simp at hok
  · rw [hout] at hok; simp at hok
  · rw [hout] at hok; simp at hok
  · rw [hout] at hok; simp at hok
  · rw [hout] at hok; simp at hok
  · rw [hout] at hok; simp at hok
  · rw [hout] at hok
    simp only [Except.ok.injEq, Prod.mk.injEq, true_and] at hok
    subst hok
    refine ⟨ratio, rfl, rfl, ?_, toHexChars_mem _ hb, ?_, ?_⟩
    · show (toHexChars env.randBytes).length = 64
      rw [toHexChars_length, hlen]
    · intro l hl
      subst hl
      rfl
    · intro hn
      subst hn
      rfl

/-- C7 witness: the amended shape at the concrete probe-failure run, whose
key label is the string `"undefined"`. -/
theorem C7_amended_pipeline_key_shape_witness :
    ∃ ratio : Option Label,
      (⟨"u1", some (locatorUrl tubeCfg
          (makeKey "undefined" (List.replicate 32 0)))⟩ : Video).videoURL =
        some (locatorUrl tubeCfg (makeKey (ratioToStr ratio) probeFailEnv.randBytes)) ∧
      makeKey (ratioToStr ratio) probeFailEnv.randBytes =
        ratioToStr ratio ++ "/" ++ toHex probeFailEnv.randBytes ++ ".mp4" ∧
      (toHex probeFailEnv.randBytes).length = 64 ∧
      (∀ c ∈ (toHex probeFailEnv.randBytes).data, c ∈ hexDigits) ∧
      (∀ l, ratio = some l → ratioToStr ratio = labelStr l) ∧
      (ratio = none → ratioToStr ratio = "undefined") :=
  C7_amended_pipeline_key_shape tubeCfg okReq okDb probeFailEnv
    ⟨"u1", some (locatorUrl tubeCfg (makeKey "undefined" (List.replicate 32 0)))⟩
    (by decide) (by decide) rfl

/-- C10 witness: a declared size of exactly 2^30 bytes does not produce the
size-limit Bad-Request. -/
theorem C10_size_ceiling_strict_witness :
    (runHandler tubeCfg ⟨some "v1", "u1", true, 2 ^ 30, "video/mp4"⟩ okDb okEnv).result ≠
      Except.error (.badRequest "file exceeds upload limit (1GB)") :=
  C10_size_ceiling_strict.2 tubeCfg ⟨some "v1", "u1", true, 2 ^ 30, "video/mp4"⟩
    okDb okEnv (by norm_num)
